import Mathlib

/-!
Verification of the Quiver-Hub point-cloud relay server.

The definitions below are a shallow embedding of the server code:
  * `src/server/db.ts`        — credential lookup (`validateApiKey`);
  * `src/server/rest-api.ts`  — the plain-HTTP ingestion handler
    (`router.post "/pointcloud/ingest"`), the in-memory `lastScans`
    map backing the polling fallback, and the
    `GET /pointcloud/latest/:droneId` lookup;
  * `src/server/routers.ts`   — the typed-procedure (tRPC)
    `pointcloud.ingest` mutation with its zod input schema;
  * `src/server/websocket.ts` — the socket room state
    (subscribe / unsubscribe) and `broadcastPointCloud`.

Dynamically-typed request bodies are modelled by the `JsonVal` type
together with the JavaScript truthiness / `typeof` semantics the
handler relies on.  Database writes (`upsertDrone`, `insertScan`) are
modelled as emitted effects; their possible failure (a rejected
promise) is modelled by a `FailOracle`.  Machine-level number
representation is irrelevant to every property treated here (the code
only tests `typeof x === "number"` and passes values through), so
numbers are carried as `Int`.
-/

namespace QuiverHub

/-- A JavaScript value as far as the handlers inspect one: the
primitives the validation code distinguishes by truthiness and
`typeof`, plus arrays and plain objects (association lists of fields). -/
inductive JsonVal : Type where
  | vStr (s : String)
  | vNum (n : Int)
  | vBool (b : Bool)
  | vNull
  | vUndefined
  | vArr (elems : List JsonVal)
  | vObj (fields : List (String × JsonVal))

/-- JavaScript truthiness: `undefined`, `null`, `false`, `0` and `""`
are falsy; every array and object is truthy. -/
def truthy : JsonVal → Bool
  | .vStr s => s ≠ ""
  | .vNum n => n ≠ 0
  | .vBool b => b
  | .vNull => false
  | .vUndefined => false
  | .vArr _ => true
  | .vObj _ => true

/-- `typeof v === "number"`. -/
def isNumber : JsonVal → Bool
  | .vNum _ => true
  | _ => false

/-- `Array.isArray v`. -/
def isArray : JsonVal → Bool
  | .vArr _ => true
  | _ => false

/-- `typeof v === "object" && v !== null`: arrays and plain objects. -/
def isObjectNonNull : JsonVal → Bool
  | .vArr _ => true
  | .vObj _ => true
  | _ => false

/-- Field lookup in an object field list; `undefined` when absent. -/
def objGet (fields : List (String × JsonVal)) (f : String) : JsonVal :=
  match fields.find? (fun kv => kv.1 == f) with
  | some kv => kv.2
  | none => .vUndefined

/-- Property access `v[f]` on a value already known not to be
`null`/`undefined`: named fields exist only on plain objects; on any
other base (including arrays, which carry no such named fields here)
the result is `undefined`. -/
def jsIndex : JsonVal → String → JsonVal
  | .vObj fields, f => objGet fields f
  | _, _ => .vUndefined

/-- The element list of an array value. -/
def arrElems : JsonVal → List JsonVal
  | .vArr xs => xs
  | _ => []

/-- Strict equality `v === s` between an arbitrary value and a known
string (as in `apiKeyRecord.droneId !== drone_id` and the SQL key
lookup): it holds exactly when `v` is that string. -/
def jsStrEq (v : JsonVal) (s : String) : Bool :=
  match v with
  | .vStr t => t == s
  | _ => false

/-- A request body: the JSON object posted to the endpoint, as its
field list. -/
def Body : Type := List (String × JsonVal)

/-- Read one destructured field of `req.body`. -/
def bodyGet (b : Body) (f : String) : JsonVal := objGet b f

/-- One row of the `apiKeys` table (`drizzle/schema.ts`): the key
value, the drone it is bound to, and the active flag. -/
structure Credential : Type where
  key : String
  droneId : String
  isActive : Bool
deriving DecidableEq, Repr

/-- The durable store as the credential-validation path sees it: the
`apiKeys` rows (`key` is UNIQUE in the schema). -/
structure Db : Type where
  apiKeys : List Credential
deriving DecidableEq, Repr

/-- `validateApiKey` from `src/server/db.ts`: with no database handle
it returns `null`; otherwise it selects the row matching the key and
returns `null` when there is none or its `isActive` flag is false.
The key argument is the raw request value; a non-string never equals a
stored `varchar` key. -/
def validateApiKey (db : Option Db) (key : JsonVal) : Option Credential :=
  match db with
  | none => none
  | some d =>
    match d.apiKeys.find? (fun c => jsStrEq key c.key) with
    | none => none
    | some c => if c.isActive then some c else none

/-- The `PointCloudMessage` built by an accepted ingest: the claimed
drone id (a string — it survived the strict comparison with the
credential's `droneId`), and the raw `timestamp`, `points` and `stats`
values passed through unmodified. -/
structure PointCloudMessage : Type where
  drone_id : String
  timestamp : JsonVal
  points : JsonVal
  stats : JsonVal

/-- The in-memory `lastScans` map, keyed by drone id. -/
def Cache : Type := List (String × PointCloudMessage)

/-- `lastScans.set k v`: replace any entry for `k`. -/
def cacheSet (c : Cache) (k : String) (v : PointCloudMessage) : Cache :=
  (k, v) :: c.filter (fun kv => kv.1 != k)

/-- `lastScans.get k`. -/
def cacheGet (c : Cache) (k : String) : Option PointCloudMessage :=
  match c.find? (fun kv => kv.1 == k) with
  | some kv => some kv.2
  | none => none

/-- The rejection reasons of the HTTP ingestion handler, in the order
its checks occur.  `caughtTypeError i` models the `TypeError` thrown
by `point[field]` when `points[i]` is `null`/`undefined`, which the
surrounding try/catch turns into the 500 response. -/
inductive Rejection : Type where
  | missingFields
  | invalidApiKey
  | droneIdMismatch
  | pointsNotArray
  | statsNotObject
  | statsFieldNotNumber (field : String)
  | pointFieldNotNumber (i : Nat) (field : String)
  | caughtTypeError (i : Nat)
deriving DecidableEq, Repr

/-- The six `requiredStatsFields`, in source order. -/
def requiredStatsFields : List String :=
  ["point_count", "valid_points", "min_distance", "max_distance",
   "avg_distance", "avg_quality"]

/-- The five `requiredPointFields`, in source order. -/
def requiredPointFields : List String :=
  ["angle", "distance", "quality", "x", "y"]

/-- The stats-field loop: the first of the six fields whose value is
not a number, if any. -/
def firstBadStatsField (stats : JsonVal) : Option String :=
  requiredStatsFields.find? (fun f => !(isNumber (jsIndex stats f)))

/-- One iteration of the point loop at index `i`: accessing a field of
a `null`/`undefined` element throws; otherwise the first non-numeric
field of the five is reported. -/
def checkPoint (p : JsonVal) (i : Nat) : Except Rejection Unit :=
  match p with
  | .vNull => .error (.caughtTypeError i)
  | .vUndefined => .error (.caughtTypeError i)
  | _ =>
    match requiredPointFields.find? (fun f => !(isNumber (jsIndex p f))) with
    | some f => .error (.pointFieldNotNumber i f)
    | none => .ok ()

/-- The point loop `for i in [0, min(points.length, 5))`, starting at
index `i`. -/
def checkPointsFrom (i : Nat) : List JsonVal → Except Rejection Unit
  | [] => .ok ()
  | p :: rest =>
    if i < 5 then
      match checkPoint p i with
      | .error r => .error r
      | .ok _ => checkPointsFrom (i + 1) rest
    else .ok ()

/-- The validation phase of `POST /pointcloud/ingest`
(`src/server/rest-api.ts`, lines 35–107), check for check in source
order: field presence by truthiness, API-key lookup, drone-id match,
`points` an array, `stats` a non-null object, the six stats fields
numeric, and the first five points deep-checked.  On success it yields
the `PointCloudMessage` the handler goes on to commit. -/
def restValidate (db : Option Db) (body : Body) : Except Rejection PointCloudMessage :=
  let api_key := bodyGet body "api_key"
  let drone_id := bodyGet body "drone_id"
  let timestamp := bodyGet body "timestamp"
  let points := bodyGet body "points"
  let stats := bodyGet body "stats"
  if !(truthy api_key && truthy drone_id && truthy timestamp
        && truthy points && truthy stats) then
    .error .missingFields
  else
    match validateApiKey db api_key with
    | none => .error .invalidApiKey
    | some rec =>
      if !(jsStrEq drone_id rec.droneId) then
        .error .droneIdMismatch
      else if !(isArray points) then
        .error .pointsNotArray
      else if !(isObjectNonNull stats) then
        .error .statsNotObject
      else
        match firstBadStatsField stats with
        | some f => .error (.statsFieldNotNumber f)
        | none =>
          match checkPointsFrom 0 (arrElems points) with
          | .error r => .error r
          | .ok _ => .ok ⟨rec.droneId, timestamp, points, stats⟩

/-- Whether the two awaited database writes of the commit phase throw
(a rejected promise caught by the handler's try/catch). -/
structure FailOracle : Type where
  upsertFails : Bool
  insertFails : Bool
deriving DecidableEq, Repr

/-- Both writes succeed. -/
def noFail : FailOracle := ⟨false, false⟩

/-- A completed side effect of the commit phase, tagged with the drone
id it concerns, in the order the handler performs them. -/
inductive Effect : Type where
  | upsertDrone (droneId : String)
  | insertScan (droneId : String)
  | cacheWrite (droneId : String)
  | broadcast (droneId : String)
deriving DecidableEq, Repr

/-- The HTTP handler's response. -/
inductive RestResult : Type where
  | rejected (r : Rejection)
  | internalError
  | success (msg : PointCloudMessage)

/-- The HTTP status attached to each rejection. -/
def Rejection.httpStatus : Rejection → Nat
  | .invalidApiKey => 401
  | .droneIdMismatch => 403
  | .caughtTypeError _ => 500
  | _ => 400

/-- The HTTP status of a response. -/
def RestResult.httpStatus : RestResult → Nat
  | .rejected r => r.httpStatus
  | .internalError => 500
  | .success _ => 200

/-- Whether the response is the 200 acceptance. -/
def RestResult.isAccepted : RestResult → Bool
  | .success _ => true
  | _ => false

/-- The whole `POST /pointcloud/ingest` handler: validation
(lines 35–107), then the commit sequence (lines 109–147) — await
`upsertDrone`, await `insertScan`, `lastScans.set`, then
`broadcastPointCloud` — where a throwing write is caught and answered
with the 500 response, effects already completed staying in place.
Returns the response, the cache after the request, and the list of
completed side effects in order. -/
def restIngest (db : Option Db) (orc : FailOracle) (cache : Cache) (body : Body) :
    RestResult × Cache × List Effect :=
  match restValidate db body with
  | .error r => (.rejected r, cache, [])
  | .ok msg =>
    if orc.upsertFails then
      (.internalError, cache, [])
    else if orc.insertFails then
      (.internalError, cache, [.upsertDrone msg.drone_id])
    else
      (.success msg, cacheSet cache msg.drone_id msg,
        [.upsertDrone msg.drone_id, .insertScan msg.drone_id,
         .cacheWrite msg.drone_id, .broadcast msg.drone_id])

/-- `GET /pointcloud/latest/:droneId`: the cached message, or the 404
"no data" signal (`none`) when the drone has no entry. -/
def latestLookup (cache : Cache) (droneId : String) : Option PointCloudMessage :=
  cacheGet cache droneId

/-! ### The typed-procedure (tRPC) transport, `src/server/routers.ts` -/

/-- One point of the zod input schema of `pointcloud.ingest`: five
required numeric fields. -/
structure Point : Type where
  angle : Int
  distance : Int
  quality : Int
  x : Int
  y : Int
deriving DecidableEq, Repr

/-- The `stats` object of the zod schema: six required numeric
fields. -/
structure Stats : Type where
  point_count : Int
  valid_points : Int
  min_distance : Int
  max_distance : Int
  avg_distance : Int
  avg_quality : Int
deriving DecidableEq, Repr

/-- The parsed input of `pointcloud.ingest`. -/
structure IngestInput : Type where
  api_key : String
  drone_id : String
  timestamp : String
  points : List Point
  stats : Stats
deriving DecidableEq, Repr

/-- `z.string()`. -/
def parseString : JsonVal → Option String
  | .vStr s => some s
  | _ => none

/-- `z.number()`. -/
def parseNumber : JsonVal → Option Int
  | .vNum n => some n
  | _ => none

/-- The per-point object schema: the value must be a plain object with
all five numeric fields (unknown keys are stripped). -/
def parsePoint : JsonVal → Option Point
  | .vObj fs => do
    let angle ← parseNumber (objGet fs "angle")
    let distance ← parseNumber (objGet fs "distance")
    let quality ← parseNumber (objGet fs "quality")
    let x ← parseNumber (objGet fs "x")
    let y ← parseNumber (objGet fs "y")
    pure ⟨angle, distance, quality, x, y⟩
  | _ => none

/-- The `stats` object schema. -/
def parseStats : JsonVal → Option Stats
  | .vObj fs => do
    let point_count ← parseNumber (objGet fs "point_count")
    let valid_points ← parseNumber (objGet fs "valid_points")
    let min_distance ← parseNumber (objGet fs "min_distance")
    let max_distance ← parseNumber (objGet fs "max_distance")
    let avg_distance ← parseNumber (objGet fs "avg_distance")
    let avg_quality ← parseNumber (objGet fs "avg_quality")
    pure ⟨point_count, valid_points, min_distance, max_distance,
          avg_distance, avg_quality⟩
  | _ => none

/-- `z.array` over the point schema: every element must parse. -/
def parsePoints : List JsonVal → Option (List Point)
  | [] => some []
  | p :: rest => do
    let pt ← parsePoint p
    let pts ← parsePoints rest
    pure (pt :: pts)

/-- The whole zod input schema of `pointcloud.ingest`: every field
required, and — unlike the HTTP handler — every element of `points`
is validated. -/
def parseIngestInput (body : Body) : Option IngestInput := do
  let api_key ← parseString (bodyGet body "api_key")
  let drone_id ← parseString (bodyGet body "drone_id")
  let timestamp ← parseString (bodyGet body "timestamp")
  let pointsRaw := bodyGet body "points"
  match pointsRaw with
  | .vArr elems =>
    let points ← parsePoints elems
    let stats ← parseStats (bodyGet body "stats")
    pure ⟨api_key, drone_id, timestamp, points, stats⟩
  | _ => none

/-- The JSON form of a parsed point, as it appears in the
`PointCloudMessage` the mutation builds from its parsed input. -/
def Point.toJson (p : Point) : JsonVal :=
  .vObj [("angle", .vNum p.angle), ("distance", .vNum p.distance),
         ("quality", .vNum p.quality), ("x", .vNum p.x), ("y", .vNum p.y)]

/-- The JSON form of parsed stats. -/
def Stats.toJson (s : Stats) : JsonVal :=
  .vObj [("point_count", .vNum s.point_count),
         ("valid_points", .vNum s.valid_points),
         ("min_distance", .vNum s.min_distance),
         ("max_distance", .vNum s.max_distance),
         ("avg_distance", .vNum s.avg_distance),
         ("avg_quality", .vNum s.avg_quality)]

/-- The `PointCloudMessage` the mutation broadcasts: the parsed input,
fields passed through. -/
def IngestInput.toMessage (i : IngestInput) : PointCloudMessage :=
  ⟨i.drone_id, .vStr i.timestamp, .vArr (i.points.map Point.toJson),
   i.stats.toJson⟩

/-- The response of the `pointcloud.ingest` mutation.  A schema
violation is a tRPC input error; the two thrown `Error`s and a
throwing database write surface as tRPC internal errors. -/
inductive TrpcResult : Type where
  | inputParseError
  | errInvalidApiKey
  | errDroneIdMismatch
  | internalError
  | success (msg : PointCloudMessage)

/-- Whether the mutation returned `success: true`. -/
def TrpcResult.isAccepted : TrpcResult → Bool
  | .success _ => true
  | _ => false

/-- The `pointcloud.ingest` mutation (`src/server/routers.ts`,
lines 34–98): zod input parsing, `validateApiKey`, drone-id match,
then await `upsertDrone`, await `insertScan`, `broadcastPointCloud`.
It never touches the `lastScans` map, which lives in the HTTP module.
Returns the response, the cache after the request, and the completed
side effects in order. -/
def trpcIngest (db : Option Db) (orc : FailOracle) (cache : Cache) (body : Body) :
    TrpcResult × Cache × List Effect :=
  match parseIngestInput body with
  | none => (.inputParseError, cache, [])
  | some input =>
    match validateApiKey db (.vStr input.api_key) with
    | none => (.errInvalidApiKey, cache, [])
    | some rec =>
      if rec.droneId ≠ input.drone_id then
        (.errDroneIdMismatch, cache, [])
      else if orc.upsertFails then
        (.internalError, cache, [])
      else if orc.insertFails then
        (.internalError, cache, [.upsertDrone input.drone_id])
      else
        (.success input.toMessage, cache,
          [.upsertDrone input.drone_id, .insertScan input.drone_id,
           .broadcast input.drone_id])

/-! ### The socket layer, `src/server/websocket.ts` -/

/-- Insert a socket id into a room member list (socket.io `join` is
idempotent). -/
def addIfAbsent (c : String) (l : List String) : List String :=
  if c ∈ l then l else c :: l

/-- Remove a socket id from a member list. -/
def removeAll (c : String) (l : List String) : List String :=
  l.filter (fun x => x != c)

/-- The socket server state: the connected socket ids and, per room
name, the member list. -/
structure WsState : Type where
  connections : List String
  rooms : String → List String

/-- `socket.join room`. -/
def socketJoin (st : WsState) (sid room : String) : WsState :=
  ⟨st.connections,
   fun r => if r = room then addIfAbsent sid (st.rooms r) else st.rooms r⟩

/-- `socket.leave room`. -/
def socketLeave (st : WsState) (sid room : String) : WsState :=
  ⟨st.connections,
   fun r => if r = room then removeAll sid (st.rooms r) else st.rooms r⟩

/-- The `subscribe` event handler: `socket.join ("drone:" + droneId)`
— and nothing else; no prior room is left. -/
def onSubscribe (st : WsState) (sid droneId : String) : WsState :=
  socketJoin st sid ("drone:" ++ droneId)

/-- The `unsubscribe` event handler: `socket.leave ("drone:" + droneId)`. -/
def onUnsubscribe (st : WsState) (sid droneId : String) : WsState :=
  socketLeave st sid ("drone:" ++ droneId)

/-- The members of the room of one drone. -/
def membersOf (st : WsState) (droneId : String) : List String :=
  st.rooms ("drone:" ++ droneId)

/-- One delivered socket event: the full `pointcloud` batch to a room
member, or the reduced `pointcloud_update` summary
`(drone_id, timestamp, point_count)`. -/
inductive Delivery : Type where
  | fullBatch (conn : String) (msg : PointCloudMessage)
  | summary (conn : String) (droneId : String) (timestamp : JsonVal)
      (pointCount : JsonVal)

/-- `broadcastPointCloud` (`src/server/websocket.ts`, lines 57–72):
`io.to("drone:" + msg.drone_id).emit "pointcloud"` delivers the full
message to each member of that room, and `io.emit "pointcloud_update"`
delivers the summary to every connected socket. -/
def broadcastPointCloud (st : WsState) (msg : PointCloudMessage) : List Delivery :=
  (membersOf st msg.drone_id).map (fun c => Delivery.fullBatch c msg)
    ++ st.connections.map (fun c =>
        Delivery.summary c msg.drone_id msg.timestamp
          (jsIndex msg.stats "point_count"))

/-! ### Traces of ingestion requests over both transports -/

/-- One ingestion request arriving over one of the two transports. -/
inductive IngestOp : Type where
  | viaRest (body : Body)
  | viaTrpc (body : Body)

/-- The cache after one request is served. -/
def stepCache (db : Option Db) (cache : Cache) : IngestOp → Cache
  | .viaRest b => (restIngest db noFail cache b).2.1
  | .viaTrpc b => (trpcIngest db noFail cache b).2.1

/-- The cache after a sequence of requests is served in order. -/
def runTrace (db : Option Db) (cache : Cache) : List IngestOp → Cache
  | [] => cache
  | op :: rest => runTrace db (stepCache db cache op) rest

/-- The accepted message of one request, if it was accepted (the
accept decision and message do not depend on the cache, so they are
read off at the empty cache). -/
def acceptedMsg (db : Option Db) : IngestOp → Option PointCloudMessage
  | .viaRest b =>
    match (restIngest db noFail [] b).1 with
    | .success m => some m
    | _ => none
  | .viaTrpc b =>
    match (trpcIngest db noFail [] b).1 with
    | .success m => some m
    | _ => none

/-- `some m` when `o` is an accepted message for source `s`. -/
def forSource (s : String) (o : Option PointCloudMessage) : Option PointCloudMessage :=
  match o with
  | some m => if m.drone_id == s then some m else none
  | none => none

/-- Latest-wins choice: the left (later) value when present, else the
right (earlier) one. -/
def orDefault (o d : Option PointCloudMessage) : Option PointCloudMessage :=
  match o with
  | some m => some m
  | none => d

/-- The batch of the most recently accepted request for source `s` in
the trace, over both transports. -/
def lastAcceptedFor (db : Option Db) (s : String) : List IngestOp → Option PointCloudMessage
  | [] => none
  | op :: rest => orDefault (lastAcceptedFor db s rest) (forSource s (acceptedMsg db op))

/-- The accepted message of one request when it came over the HTTP
transport; `none` for every tRPC request. -/
def acceptedRestMsg (db : Option Db) : IngestOp → Option PointCloudMessage
  | .viaRest b =>
    match (restIngest db noFail [] b).1 with
    | .success m => some m
    | _ => none
  | .viaTrpc _ => none

/-- The batch of the most recently accepted HTTP-transport request for
source `s` in the trace. -/
def lastRestAcceptedFor (db : Option Db) (s : String) : List IngestOp → Option PointCloudMessage
  | [] => none
  | op :: rest =>
    orDefault (lastRestAcceptedFor db s rest) (forSource s (acceptedRestMsg db op))

/-- A point value that passes the deep per-point check: not
`null`/`undefined`, and all five required fields numeric. -/
def pointDeepValid : JsonVal → Bool
  | .vNull => false
  | .vUndefined => false
  | p => requiredPointFields.all (fun f => isNumber (jsIndex p f))

/-! ### Concrete fixtures used by witnesses and counterexamples -/

/-- A credential store holding one active key `k1` bound to drone `d1`. -/
def demoDb : Option Db := some ⟨[⟨"k1", "d1", true⟩]⟩

/-- A fully numeric stats object. -/
def demoStats : JsonVal :=
  .vObj [("point_count", .vNum 3), ("valid_points", .vNum 3),
         ("min_distance", .vNum 1), ("max_distance", .vNum 9),
         ("avg_distance", .vNum 5), ("avg_quality", .vNum 40)]

/-- A fully numeric point. -/
def demoPoint : JsonVal :=
  .vObj [("angle", .vNum 1), ("distance", .vNum 2), ("quality", .vNum 3),
         ("x", .vNum 4), ("y", .vNum 5)]

/-- A point whose `angle` is a string, as a malformed tail element. -/
def demoBadPoint : JsonVal :=
  .vObj [("angle", .vStr "oops"), ("distance", .vNum 2), ("quality", .vNum 3),
         ("x", .vNum 4), ("y", .vNum 5)]

/-- A request body with the five top-level fields in the documented
shape. -/
def mkBody (k d t : String) (pts : List JsonVal) (stats : JsonVal) : Body :=
  [("api_key", .vStr k), ("drone_id", .vStr d), ("timestamp", .vStr t),
   ("points", .vArr pts), ("stats", stats)]

/-- A fully valid ingest body for drone `d1` at time `t1`. -/
def demoGoodBody : Body := mkBody "k1" "d1" "t1" [demoPoint] demoStats

/-- A second fully valid ingest body for drone `d1`, at time `t2`. -/
def demoGoodBody2 : Body := mkBody "k1" "d1" "t2" [demoPoint] demoStats

/-- An otherwise fully valid body whose sixth point (index 5) has a
non-numeric `angle`. -/
def demoSixPtsBody : Body :=
  mkBody "k1" "d1" "t1"
    [demoPoint, demoPoint, demoPoint, demoPoint, demoPoint, demoBadPoint]
    demoStats

/-- A body with an unknown key and no `stats` field at all. -/
def demoNoStatsBadKeyBody : Body :=
  [("api_key", .vStr "nope"), ("drone_id", .vStr "d1"),
   ("timestamp", .vStr "t1"), ("points", .vArr [])]

/-- A body using the `d1`-bound key `k1` while claiming drone `d2`,
with no `stats` field. -/
def demoMismatchNoStatsBody : Body :=
  [("api_key", .vStr "k1"), ("drone_id", .vStr "d2"),
   ("timestamp", .vStr "t1"), ("points", .vArr [])]

/-- A structurally valid body using the `d1`-bound key `k1` while
claiming drone `d2`. -/
def demoMismatchBody : Body := mkBody "k1" "d2" "t1" [demoPoint] demoStats

/-- A field-complete body carrying the unknown key `nope`. -/
def demoBadKeyBody : Body := mkBody "nope" "d1" "t1" [] demoStats

/-- Two accepted ingests for `d1`: first over HTTP at `t1`, then over
the typed procedure at `t2`. -/
def demoOps : List IngestOp :=
  [.viaRest demoGoodBody, .viaTrpc demoGoodBody2]

/-- The message the HTTP transport accepts from `demoGoodBody`. -/
def demoMsgB1 : PointCloudMessage :=
  ⟨"d1", .vStr "t1", .vArr [demoPoint], demoStats⟩

/-- The message the typed transport accepts from `demoGoodBody2`. -/
def demoMsgB2 : PointCloudMessage :=
  IngestInput.toMessage ⟨"k1", "d1", "t2", [⟨1, 2, 3, 4, 5⟩], ⟨3, 3, 1, 9, 5, 40⟩⟩

/-- A socket state: three connections, `c1` subscribed to `d1` and
`c2` subscribed to `dY`. -/
def demoWs : WsState :=
  ⟨["c1", "c2", "c3"],
   fun r => if r = "drone:d1" then ["c1"]
            else if r = "drone:dY" then ["c2"] else []⟩

/-- A socket state with one connection and no memberships. -/
def demoWs0 : WsState := ⟨["c1"], fun _ => []⟩

/-- `c1` subscribes to `dX`, then — without unsubscribing — to `dY`. -/
def demoWsXY : WsState := onSubscribe (onSubscribe demoWs0 "c1" "dX") "c1" "dY"

/-! ### General lemmas about the embedded operations -/

/-- Filtering out the entries of a different key does not change a
key lookup. -/
theorem find?_key_filter (c : Cache) (k s : String) (h : ¬ s = k) :
    (c.filter (fun kv => kv.1 != k)).find? (fun kv => kv.1 == s)
      = c.find? (fun kv => kv.1 == s) := by
  induction c with
  | nil => rfl
  | cons hd tl ih =>
    by_cases hk : hd.1 = k
    · rw [List.filter_cons_of_neg (by simp [hk]), ih,
        List.find?_cons_of_neg _ (by simp [hk]; exact fun hh => h hh.symm)]
    · rw [List.filter_cons_of_pos (by simp [hk])]
      by_cases hs : hd.1 = s
      · rw [List.find?_cons_of_pos _ (by simp [hs]),
          List.find?_cons_of_pos _ (by simp [hs])]
      · rw [List.find?_cons_of_neg _ (by simp [hs]),
          List.find?_cons_of_neg _ (by simp [hs]), ih]

/-- `Map.set` semantics of the cache: a lookup after a write sees the
written value at that key and is otherwise unchanged. -/
theorem cacheGet_cacheSet (c : Cache) (k s : String) (v : PointCloudMessage) :
    cacheGet (cacheSet c k v) s = if k = s then some v else cacheGet c s := by
  unfold cacheGet cacheSet
  by_cases h : k = s
  · subst h
    rw [List.find?_cons_of_pos _ (by simp)]
    simp
  · rw [List.find?_cons_of_neg _ (by simpa using h),
      find?_key_filter c k s (fun hh => h hh.symm)]
    simp [h]

/-- Joining a room makes the socket a member. -/
theorem mem_addIfAbsent_self (c : String) (l : List String) :
    c ∈ addIfAbsent c l := by
  unfold addIfAbsent
  split
  · assumption
  · exact List.mem_cons_self c l

/-- Joining a room keeps every existing member. -/
theorem mem_addIfAbsent_of_mem (a c : String) (l : List String) (h : c ∈ l) :
    c ∈ addIfAbsent a l := by
  unfold addIfAbsent
  split
  · exact h
  · exact List.mem_cons_of_mem a h

/-- A point passing the deep check passes one iteration of the point
loop at any index. -/
theorem checkPoint_ok (p : JsonVal) (i : Nat) (h : pointDeepValid p = true) :
    checkPoint p i = .ok () := by
  cases p with
  | vNull => simp [pointDeepValid] at h
  | vUndefined => simp [pointDeepValid] at h
  | vStr s => simp [pointDeepValid, requiredPointFields, jsIndex, isNumber] at h
  | vNum n => simp [pointDeepValid, requiredPointFields, jsIndex, isNumber] at h
  | vBool b => simp [pointDeepValid, requiredPointFields, jsIndex, isNumber] at h
  | vArr xs => simp [pointDeepValid, requiredPointFields, jsIndex, isNumber] at h
  | vObj fs =>
    have h2 : ∀ f ∈ requiredPointFields, isNumber (jsIndex (.vObj fs) f) = true := by
      simpa [pointDeepValid, List.all_eq_true] using h
    have h3 : requiredPointFields.find?
        (fun f => !(isNumber (jsIndex (.vObj fs) f))) = none := by
      rw [List.find?_eq_none]
      intro f hf
      simp [h2 f hf]
    simp [checkPoint, h3]

/-- From index 5 on, the point loop checks nothing. -/
theorem checkPointsFrom_ge5 (i : Nat) (l : List JsonVal) (h : 5 ≤ i) :
    checkPointsFrom i l = .ok () := by
  cases l with
  | nil => rfl
  | cons p rest => simp [checkPointsFrom, Nat.not_lt.mpr h]

/-- The point loop accepts any list whose checked window consists of
deep-valid points, whatever follows it. -/
theorem checkPointsFrom_valid_window (ps rest : List JsonVal) (i : Nat)
    (hv : ∀ p ∈ ps, pointDeepValid p = true) (hlen : i + ps.length = 5) :
    checkPointsFrom i (ps ++ rest) = .ok () := by
  induction ps generalizing i with
  | nil => exact checkPointsFrom_ge5 i rest (by simp at hlen; omega)
  | cons p ps2 ih =>
    have hi : i < 5 := by simp at hlen; omega
    have hp : pointDeepValid p = true := hv p (by simp)
    have hrec := ih (fun q hq => hv q (by simp [hq])) (i := i + 1)
      (by simp at hlen ⊢; omega)
    simp [checkPointsFrom, hi, checkPoint_ok p i hp, hrec]

/-- The schema's point-array parse fails whenever any element fails
the per-point schema. -/
theorem parsePoints_none (pts : List JsonVal) (p : JsonVal)
    (hp : p ∈ pts) (hbad : parsePoint p = none) :
    parsePoints pts = none := by
  induction pts with
  | nil => cases hp
  | cons q rest ih =>
    rcases List.mem_cons.mp hp with h | h
    · subst h
      simp [parsePoints, hbad]
    · cases hq : parsePoint q <;> simp [parsePoints, hq, ih h]

/-- The typed-procedure mutation never modifies the `lastScans` map. -/
theorem trpcIngest_cache_unchanged (db : Option Db) (orc : FailOracle)
    (cache : Cache) (body : Body) :
    (trpcIngest db orc cache body).2.1 = cache := by
  rcases hp : parseIngestInput body with _ | input
  · simp [trpcIngest, hp]
  · rcases hk : validateApiKey db (.vStr input.api_key) with _ | rec
    · simp [trpcIngest, hp, hk]
    · by_cases h1 : rec.droneId = input.drone_id
      · by_cases h2 : orc.upsertFails <;> by_cases h3 : orc.insertFails <;>
          simp [trpcIngest, hp, hk, h1, h2, h3]
      · simp [trpcIngest, hp, hk, h1]

/-- Latest-wins choice is associative. -/
theorem orDefault_assoc (a b c : Option PointCloudMessage) :
    orDefault a (orDefault b c) = orDefault (orDefault a b) c := by
  cases a <;> cases b <;> rfl

/-- Serving one request changes a cache lookup exactly when the
request is an accepted HTTP ingest for that source. -/
theorem cacheGet_stepCache (db : Option Db) (cache : Cache) (op : IngestOp)
    (s : String) :
    cacheGet (stepCache db cache op) s
      = orDefault (forSource s (acceptedRestMsg db op)) (cacheGet cache s) := by
  cases op with
  | viaTrpc b =>
    simp [stepCache, acceptedRestMsg, forSource, orDefault, trpcIngest_cache_unchanged]
  | viaRest b =>
    rcases h : restValidate db b with r | msg
    · simp [stepCache, acceptedRestMsg, restIngest, h, forSource, orDefault]
    · simp only [stepCache, acceptedRestMsg, restIngest, h, noFail,
        Bool.false_eq_true, if_false]
      rw [cacheGet_cacheSet]
      by_cases hs : msg.drone_id = s
      · simp [hs, forSource, orDefault]
      · simp [hs, forSource, orDefault]

/-! ### The claims -/

/-- C2 (amended): after any sequence of ingestion requests over both
transports, the pull lookup for source `s` returns exactly the batch
of the most recently accepted HTTP-transport ingest for `s` (overwrite,
never a merge), and falls back to the prior cache content — so, from
an empty cache, the explicit Absent signal — when no HTTP-transport
ingest for `s` was ever accepted.  Accepted typed-procedure ingests do
not update the cache. -/
theorem cache_tracks_latest_rest_accepted (db : Option Db) (cache : Cache)
    (ops : List IngestOp) (s : String) :
    latestLookup (runTrace db cache ops) s
      = orDefault (lastRestAcceptedFor db s ops) (cacheGet cache s) := by
  induction ops generalizing cache with
  | nil => rfl
  | cons op rest ih =>
    show cacheGet (runTrace db (stepCache db cache op) rest) s = _
    rw [show cacheGet (runTrace db (stepCache db cache op) rest) s
          = latestLookup (runTrace db (stepCache db cache op) rest) s from rfl,
      ih, cacheGet_stepCache, orDefault_assoc]
    rfl

/-- C2 as stated is false: after an accepted HTTP ingest for `d1` at
`t1` followed by an accepted typed-procedure ingest for `d1` at `t2`,
the pull lookup still returns the `t1` batch, not the batch of the
most recently accepted ingest. -/
theorem cache_not_latest_across_transports :
    latestLookup (runTrace demoDb [] demoOps) "d1" = some demoMsgB1 ∧
    lastAcceptedFor demoDb "d1" demoOps = some demoMsgB2 ∧
    ¬ (some demoMsgB1 = some demoMsgB2) := by
  refine ⟨rfl, rfl, fun h => ?_⟩
  have h2 := congrArg PointCloudMessage.timestamp (Option.some.inj h)
  simp only [demoMsgB1, demoMsgB2, IngestInput.toMessage] at h2
  exact absurd (JsonVal.vStr.inj h2) (by decide)

/-- C7: an ingest rejected during validation — over either transport —
leaves the Last-Known Cache exactly as it was and performs no side
effect at all: no liveness upsert, no scan append, no cache write, no
broadcast. -/
theorem rejected_ingest_leaves_state_unchanged :
    (∀ (db : Option Db) (orc : FailOracle) (cache : Cache) (body : Body)
        (r : Rejection),
      (restIngest db orc cache body).1 = .rejected r →
        (restIngest db orc cache body).2.1 = cache ∧
        (restIngest db orc cache body).2.2 = []) ∧
    (∀ (db : Option Db) (orc : FailOracle) (cache : Cache) (body : Body),
      ((trpcIngest db orc cache body).1 = .inputParseError ∨
        (trpcIngest db orc cache body).1 = .errInvalidApiKey ∨
        (trpcIngest db orc cache body).1 = .errDroneIdMismatch) →
        (trpcIngest db orc cache body).2.1 = cache ∧
        (trpcIngest db orc cache body).2.2 = []) := by
  constructor
  · intro db orc cache body r h
    rcases hv : restValidate db body with r2 | msg
    · simp [restIngest, hv]
    · exfalso
      by_cases h1 : orc.upsertFails <;> by_cases h2 : orc.insertFails <;>
        simp [restIngest, hv, h1, h2] at h
  · intro db orc cache body h
    rcases hp : parseIngestInput body with _ | input
    · simp [trpcIngest, hp]
    · rcases hk : validateApiKey db (.vStr input.api_key) with _ | rec
      · simp [trpcIngest, hp, hk]
      · by_cases h1 : rec.droneId = input.drone_id
        · exfalso
          by_cases h2 : orc.upsertFails <;> by_cases h3 : orc.insertFails <;>
            simp [trpcIngest, hp, hk, h1, h2, h3] at h
        · simp [trpcIngest, hp, hk, h1]

/-- C7 witness: the identity-mismatch rejection of a concrete request
leaves a concrete (empty) cache empty and performs no effect. -/
theorem rejected_ingest_leaves_state_unchanged_witness :
    (restIngest demoDb noFail [] demoMismatchBody).2.1 = ([] : Cache) ∧
    (restIngest demoDb noFail [] demoMismatchBody).2.2 = [] :=
  rejected_ingest_leaves_state_unchanged.1 demoDb noFail [] demoMismatchBody
    .droneIdMismatch rfl

/-- C8: for a request that passes validation, the commit phase runs
upsert-liveness, append-scan, cache-write, broadcast in that order;
if the upsert or the append throws, the response is the 500 internal
error, neither the cache write nor the broadcast happens, and the
effects already completed are not rolled back. -/
theorem commit_effect_order_and_failure_handling
    (db : Option Db) (orc : FailOracle) (cache : Cache) (body : Body)
    (msg : PointCloudMessage) (h : restValidate db body = .ok msg) :
    (orc.upsertFails = false → orc.insertFails = false →
      restIngest db orc cache body
        = (.success msg, cacheSet cache msg.drone_id msg,
           [.upsertDrone msg.drone_id, .insertScan msg.drone_id,
            .cacheWrite msg.drone_id, .broadcast msg.drone_id])) ∧
    (orc.upsertFails = true →
      restIngest db orc cache body = (.internalError, cache, []) ∧
      (restIngest db orc cache body).1.httpStatus = 500) ∧
    (orc.upsertFails = false → orc.insertFails = true →
      restIngest db orc cache body
        = (.internalError, cache, [.upsertDrone msg.drone_id]) ∧
      (restIngest db orc cache body).1.httpStatus = 500) := by
  refine ⟨fun h1 h2 => ?_, fun h1 => ?_, fun h1 h2 => ?_⟩
  · simp [restIngest, h, h1, h2]
  · simp [restIngest, h, h1, RestResult.httpStatus]
  · simp [restIngest, h, h1, h2, RestResult.httpStatus]

/-- C8 witness: with the scan append throwing, a concrete valid
request answers 500, keeps the completed upsert, and neither writes
the cache nor broadcasts. -/
theorem commit_effect_order_and_failure_handling_witness :
    restIngest demoDb ⟨false, true⟩ [] demoGoodBody
      = (.internalError, [], [.upsertDrone "d1"]) ∧
    (restIngest demoDb ⟨false, true⟩ [] demoGoodBody).1.httpStatus = 500 :=
  (commit_effect_order_and_failure_handling demoDb ⟨false, true⟩ [] demoGoodBody
    demoMsgB1 rfl).2.2 rfl rfl

/-- C10: with no database handle, `validateApiKey` answers `null` for
every key — including a key that exists and is active in a credential
store — so every field-complete ingestion request is rejected 401
`InvalidApiKey`, never a 500: the core fails closed. -/
theorem db_unavailable_fails_closed
    (store : Db) (cred : Credential) (_hmem : cred ∈ store.apiKeys)
    (_hact : cred.isActive = true)
    (orc : FailOracle) (cache : Cache) (body : Body)
    (hfields : (truthy (bodyGet body "api_key") && truthy (bodyGet body "drone_id")
      && truthy (bodyGet body "timestamp") && truthy (bodyGet body "points")
      && truthy (bodyGet body "stats")) = true) :
    validateApiKey none (.vStr cred.key) = none ∧
    (restIngest none orc cache body).1 = .rejected .invalidApiKey ∧
    (restIngest none orc cache body).1.httpStatus = 401 ∧
    ¬ (restIngest none orc cache body).1.httpStatus = 500 := by
  have hv : restValidate none body = .error .invalidApiKey := by
    unfold restValidate
    simp [hfields, validateApiKey]
  refine ⟨rfl, ?_, ?_, ?_⟩ <;>
    simp [restIngest, hv, RestResult.httpStatus, Rejection.httpStatus]

/-- C10 witness: a fully valid request whose key is active in a
one-row credential store is still answered 401 when the handle is
unavailable. -/
theorem db_unavailable_fails_closed_witness :
    validateApiKey none (.vStr "k1") = none ∧
    (restIngest none noFail [] demoGoodBody).1 = .rejected .invalidApiKey ∧
    (restIngest none noFail [] demoGoodBody).1.httpStatus = 401 ∧
    ¬ (restIngest none noFail [] demoGoodBody).1.httpStatus = 500 :=
  db_unavailable_fails_closed ⟨[⟨"k1", "d1", true⟩]⟩ ⟨"k1", "d1", true⟩
    (by decide) rfl noFail [] demoGoodBody (by decide)

/-- C5 is false as stated: a request that both lacks `stats` and
carries the unknown key `nope` is rejected `MissingFields`, not
`InvalidApiKey` — field presence is checked first. -/
theorem missing_fields_beats_invalid_key :
    validateApiKey demoDb (.vStr "nope") = none ∧
    (restIngest demoDb noFail [] demoNoStatsBadKeyBody).1
      = .rejected .missingFields ∧
    ¬ Rejection.missingFields = Rejection.invalidApiKey :=
  ⟨rfl, rfl, by decide⟩

/-- C5 (amended): the HTTP handler checks field presence before
credentials: a request with any required top-level field missing
(falsy) is rejected `MissingFields` whatever its key, and only a
field-complete request with an unknown or inactive key is rejected
`InvalidApiKey`. -/
theorem field_presence_checked_before_credentials
    (db : Option Db) (orc : FailOracle) (cache : Cache) (body : Body) :
    ((truthy (bodyGet body "api_key") && truthy (bodyGet body "drone_id")
        && truthy (bodyGet body "timestamp") && truthy (bodyGet body "points")
        && truthy (bodyGet body "stats")) = false →
      (restIngest db orc cache body).1 = .rejected .missingFields) ∧
    ((truthy (bodyGet body "api_key") && truthy (bodyGet body "drone_id")
        && truthy (bodyGet body "timestamp") && truthy (bodyGet body "points")
        && truthy (bodyGet body "stats")) = true →
      validateApiKey db (bodyGet body "api_key") = none →
      (restIngest db orc cache body).1 = .rejected .invalidApiKey) := by
  constructor
  · intro hf
    have hv : restValidate db body = .error .missingFields := by
      unfold restValidate
      simp [hf]
    simp [restIngest, hv]
  · intro hf hk
    have hv : restValidate db body = .error .invalidApiKey := by
      unfold restValidate
      simp [hf, hk]
    simp [restIngest, hv]

/-- C5 amended witness: a field-complete request with the unknown key
`nope` is rejected `InvalidApiKey`. -/
theorem field_presence_checked_before_credentials_witness :
    (restIngest demoDb noFail [] demoBadKeyBody).1 = .rejected .invalidApiKey :=
  (field_presence_checked_before_credentials demoDb noFail [] demoBadKeyBody).2
    (by decide) rfl

/-- C3 is false as stated: with key `k1` bound to `d1` and the request
claiming `d2`, a payload lacking `stats` is rejected `MissingFields`,
not `IdentityMismatch` — the mismatch rejection does not hold for
every payload content. -/
theorem mismatch_not_identity_rejected_when_fields_missing :
    validateApiKey demoDb (.vStr "k1") = some ⟨"k1", "d1", true⟩ ∧
    bodyGet demoMismatchNoStatsBody "drone_id" = .vStr "d2" ∧
    (restIngest demoDb noFail [] demoMismatchNoStatsBody).1
      = .rejected .missingFields ∧
    ¬ Rejection.missingFields = Rejection.droneIdMismatch :=
  ⟨rfl, rfl, rfl, by decide⟩

/-- C3 (amended): once a request passes the transport's structural
pre-checks — field presence for HTTP, the input schema for the typed
procedure — a key bound to source A with a claimed source B ≠ A is
always rejected with the identity mismatch (403 over HTTP, the
mismatch error over the typed procedure), whatever the remaining
payload content. -/
theorem identity_mismatch_rejected_after_prechecks :
    (∀ (db : Option Db) (orc : FailOracle) (cache : Cache) (body : Body)
        (rec : Credential),
      (truthy (bodyGet body "api_key") && truthy (bodyGet body "drone_id")
          && truthy (bodyGet body "timestamp") && truthy (bodyGet body "points")
          && truthy (bodyGet body "stats")) = true →
      validateApiKey db (bodyGet body "api_key") = some rec →
      jsStrEq (bodyGet body "drone_id") rec.droneId = false →
      (restIngest db orc cache body).1 = .rejected .droneIdMismatch ∧
      (restIngest db orc cache body).1.httpStatus = 403) ∧
    (∀ (db : Option Db) (orc : FailOracle) (cache : Cache) (body : Body)
        (input : IngestInput) (rec : Credential),
      parseIngestInput body = some input →
      validateApiKey db (.vStr input.api_key) = some rec →
      ¬ rec.droneId = input.drone_id →
      (trpcIngest db orc cache body).1 = .errDroneIdMismatch) := by
  constructor
  · intro db orc cache body rec hf hk hm
    have hv : restValidate db body = .error .droneIdMismatch := by
      unfold restValidate
      simp [hf, hk, hm]
    simp [restIngest, hv, RestResult.httpStatus, Rejection.httpStatus]
  · intro db orc cache body input rec hp hk hm
    simp [trpcIngest, hp, hk, hm]

/-- C3 amended witness: a structurally valid request claiming `d2`
with the `d1`-bound key is rejected 403 identity mismatch. -/
theorem identity_mismatch_rejected_after_prechecks_witness :
    (restIngest demoDb noFail [] demoMismatchBody).1 = .rejected .droneIdMismatch ∧
    (restIngest demoDb noFail [] demoMismatchBody).1.httpStatus = 403 :=
  identity_mismatch_rejected_after_prechecks.1 demoDb noFail [] demoMismatchBody
    ⟨"k1", "d1", true⟩ (by decide) rfl rfl

/-- C4 is false as stated: after `c1`, already a member of `dX`,
subscribes to `dY`, it is still a member of `dX` — the connection now
holds two active subscriptions, so re-subscribing adds rather than
replaces. -/
theorem resubscribe_does_not_replace :
    "c1" ∈ membersOf demoWsXY "dX" ∧ "c1" ∈ membersOf demoWsXY "dY" := by
  decide

/-- C4 (amended): the `subscribe` handler only joins the new room: the
connection becomes a member of the new source and loses no existing
membership — a connection subscribed to X that joins Y ≠ X is a member
of both; a membership is removed by an explicit `unsubscribe`. -/
theorem subscribe_adds_membership_preserves_old
    (st : WsState) (c x y : String) (h : c ∈ membersOf st x) :
    c ∈ membersOf (onSubscribe st c y) y ∧
    c ∈ membersOf (onSubscribe st c y) x ∧
    (∀ (z c2 : String), c2 ∈ membersOf st z →
      c2 ∈ membersOf (onSubscribe st c y) z) ∧
    c ∉ membersOf (onUnsubscribe (onSubscribe st c y) c x) x := by
  refine ⟨?_, ?_, ?_, ?_⟩
  · simp only [onSubscribe, socketJoin, membersOf]
    rw [if_pos trivial]
    exact mem_addIfAbsent_self c _
  · simp only [onSubscribe, socketJoin, membersOf]
    split
    · exact mem_addIfAbsent_of_mem c c _ h
    · exact h
  · intro z c2 h2
    simp only [onSubscribe, socketJoin, membersOf] at h2 ⊢
    split
    · exact mem_addIfAbsent_of_mem c c2 _ h2
    · exact h2
  · simp only [onUnsubscribe, onSubscribe, socketLeave, membersOf]
    rw [if_pos trivial]
    simp [removeAll]

/-- C4 amended witness: `c1`, subscribed to `d1`, joins `dY` and is a
member of both rooms; unsubscribing from `d1` then removes it there. -/
theorem subscribe_adds_membership_preserves_old_witness :
    "c1" ∈ membersOf (onSubscribe demoWs "c1" "dY") "dY" ∧
    "c1" ∈ membersOf (onSubscribe demoWs "c1" "dY") "d1" ∧
    (∀ (z c2 : String), c2 ∈ membersOf demoWs z →
      c2 ∈ membersOf (onSubscribe demoWs "c1" "dY") z) ∧
    "c1" ∉ membersOf (onUnsubscribe (onSubscribe demoWs "c1" "dY") "c1" "d1") "d1" :=
  subscribe_adds_membership_preserves_old demoWs "c1" "d1" "dY" (by decide)

/-- C6: publishing a batch for source X delivers the full batch to
every current member of X's room and to no connection that is not a
member of X's room (in particular to none subscribed only to some
Y ≠ X), while the reduced summary (drone id, timestamp, point_count)
is delivered to every connection, subscriber or not. -/
theorem broadcast_delivery_correct (st : WsState) (msg : PointCloudMessage)
    (c : String) :
    (c ∈ membersOf st msg.drone_id →
      Delivery.fullBatch c msg ∈ broadcastPointCloud st msg) ∧
    (c ∉ membersOf st msg.drone_id →
      ∀ m : PointCloudMessage,
        Delivery.fullBatch c m ∉ broadcastPointCloud st msg) ∧
    (c ∈ st.connections →
      Delivery.summary c msg.drone_id msg.timestamp
        (jsIndex msg.stats "point_count") ∈ broadcastPointCloud st msg) := by
  refine ⟨?_, ?_, ?_⟩
  · intro h
    exact List.mem_append_left _ (List.mem_map_of_mem _ h)
  · intro hnx m hmem2
    rcases List.mem_append.mp hmem2 with h1 | h2
    · rcases List.mem_map.mp h1 with ⟨c2, hc2, heq⟩
      injection heq with e1 e2
      exact hnx (e1 ▸ hc2)
    · rcases List.mem_map.mp h2 with ⟨c2, hc2, heq⟩
      exact Delivery.noConfusion heq
  · intro h
    exact List.mem_append_right _ (List.mem_map_of_mem _ h)

/-- C6 witness: in a concrete state, the subscriber `c1` of `d1` gets
the full batch, the non-subscriber `c3` gets the summary, and `c2`,
subscribed only to `dY`, gets no full batch. -/
theorem broadcast_delivery_correct_witness :
    Delivery.fullBatch "c1" demoMsgB1 ∈ broadcastPointCloud demoWs demoMsgB1 ∧
    Delivery.summary "c3" "d1" (.vStr "t1") (.vNum 3)
      ∈ broadcastPointCloud demoWs demoMsgB1 ∧
    (∀ m : PointCloudMessage,
      Delivery.fullBatch "c2" m ∉ broadcastPointCloud demoWs demoMsgB1) :=
  ⟨(broadcast_delivery_correct demoWs demoMsgB1 "c1").1 (by decide),
   (broadcast_delivery_correct demoWs demoMsgB1 "c3").2.2 (by decide),
   (broadcast_delivery_correct demoWs demoMsgB1 "c2").2.1 (by decide)⟩

/-- C9 is false as stated for the typed transport: an otherwise fully
valid batch whose point at index 5 has a string `angle` is accepted by
the HTTP transport but rejected by the typed procedure, whose schema
deep-validates every point. -/
theorem trpc_rejects_bad_tail_point :
    (restIngest demoDb noFail [] demoSixPtsBody).1.isAccepted = true ∧
    (trpcIngest demoDb noFail [] demoSixPtsBody).1 = .inputParseError ∧
    (trpcIngest demoDb noFail [] demoSixPtsBody).1.isAccepted = false :=
  ⟨rfl, rfl, rfl⟩

/-- C9 (amended): the 5-point sampling is the HTTP transport's rule:
an HTTP ingest whose key, identity and top-level shape checks pass,
whose six stats fields are numeric and whose first five points are
deep-valid is accepted whatever follows from index 5 on, while the
typed procedure rejects any batch containing a point failing its
per-point schema, at whatever index. -/
theorem tail_points_sampled_by_rest_checked_by_trpc :
    (∀ (db : Option Db) (cache : Cache) (rec : Credential) (k d t : String)
        (stats : JsonVal) (ps junk : List JsonVal),
      ¬ k = "" → ¬ d = "" → ¬ t = "" →
      validateApiKey db (.vStr k) = some rec →
      rec.droneId = d →
      isObjectNonNull stats = true →
      firstBadStatsField stats = none →
      ps.length = 5 →
      (∀ p ∈ ps, pointDeepValid p = true) →
      (restIngest db noFail cache (mkBody k d t (ps ++ junk) stats)).1.isAccepted
        = true) ∧
    (∀ (db : Option Db) (orc : FailOracle) (cache : Cache) (k d t : String)
        (pts : List JsonVal) (stats : JsonVal) (p : JsonVal),
      p ∈ pts → parsePoint p = none →
      (trpcIngest db orc cache (mkBody k d t pts stats)).1.isAccepted = false) := by
  constructor
  · intro db cache rec k d t stats ps junk hk hd ht hkey hrec hobj hstats hlen hv
    have h1 : bodyGet (mkBody k d t (ps ++ junk) stats) "api_key" = .vStr k := rfl
    have h2 : bodyGet (mkBody k d t (ps ++ junk) stats) "drone_id" = .vStr d := rfl
    have h3 : bodyGet (mkBody k d t (ps ++ junk) stats) "timestamp" = .vStr t := rfl
    have h4 : bodyGet (mkBody k d t (ps ++ junk) stats) "points"
        = .vArr (ps ++ junk) := rfl
    have h5 : bodyGet (mkBody k d t (ps ++ junk) stats) "stats" = stats := rfl
    have htru : truthy stats = true := by
      cases stats <;> simp_all [isObjectNonNull, truthy]
    have tk : truthy (.vStr k) = true := by simp [truthy, hk]
    have td : truthy (.vStr d) = true := by simp [truthy, hd]
    have tt : truthy (.vStr t) = true := by simp [truthy, ht]
    have tp : truthy (.vArr (ps ++ junk)) = true := rfl
    have hpts : checkPointsFrom 0 (arrElems (.vArr (ps ++ junk))) = .ok () :=
      checkPointsFrom_valid_window ps junk 0 hv (by omega)
    have hval : restValidate db (mkBody k d t (ps ++ junk) stats)
        = .ok ⟨rec.droneId, .vStr t, .vArr (ps ++ junk), stats⟩ := by
      unfold restValidate
      rw [h1, h2, h3, h4, h5]
      simp [tk, td, tt, tp, htru, hkey, jsStrEq, hrec, isArray, hobj,
        hstats, hpts]
    simp [restIngest, hval, noFail, RestResult.isAccepted]
  · intro db orc cache k d t pts stats p hp hbad
    have h4 : bodyGet (mkBody k d t pts stats) "points" = .vArr pts := rfl
    have hparse : parseIngestInput (mkBody k d t pts stats) = none := by
      unfold parseIngestInput
      rw [show bodyGet (mkBody k d t pts stats) "api_key" = .vStr k from rfl,
        show bodyGet (mkBody k d t pts stats) "drone_id" = .vStr d from rfl,
        show bodyGet (mkBody k d t pts stats) "timestamp" = .vStr t from rfl, h4]
      simp [parseString, parsePoints_none pts p hp hbad]
    simp [trpcIngest, hparse, TrpcResult.isAccepted]

/-- C9 amended witness: five deep-valid points followed by the bad
point are accepted over HTTP; the same six points are rejected by the
typed procedure. -/
theorem tail_points_sampled_by_rest_checked_by_trpc_witness :
    (restIngest demoDb noFail []
      (mkBody "k1" "d1" "t1"
        ([demoPoint, demoPoint, demoPoint, demoPoint, demoPoint] ++ [demoBadPoint])
        demoStats)).1.isAccepted = true ∧
    (trpcIngest demoDb noFail []
      (mkBody "k1" "d1" "t1"
        [demoPoint, demoPoint, demoPoint, demoPoint, demoPoint, demoBadPoint]
        demoStats)).1.isAccepted = false :=
  ⟨tail_points_sampled_by_rest_checked_by_trpc.1 demoDb [] ⟨"k1", "d1", true⟩
      "k1" "d1" "t1" demoStats
      [demoPoint, demoPoint, demoPoint, demoPoint, demoPoint] [demoBadPoint]
      (by decide) (by decide) (by decide) rfl rfl rfl rfl rfl (by decide),
   tail_points_sampled_by_rest_checked_by_trpc.2 demoDb noFail [] "k1" "d1" "t1"
      [demoPoint, demoPoint, demoPoint, demoPoint, demoPoint, demoBadPoint]
      demoStats demoBadPoint (by simp) rfl⟩

/-- C1 is false as stated: the same fully valid request is accepted by
both transports, but only the HTTP transport writes the Last-Known
Cache entry for its source; the accepted typed-procedure ingest leaves
the cache with no entry at all. -/
theorem trpc_accepted_ingest_skips_cache :
    (trpcIngest demoDb noFail [] demoGoodBody).1.isAccepted = true ∧
    latestLookup (trpcIngest demoDb noFail [] demoGoodBody).2.1 "d1" = none ∧
    (restIngest demoDb noFail [] demoGoodBody).1.isAccepted = true ∧
    latestLookup (restIngest demoDb noFail [] demoGoodBody).2.1 "d1"
      = some demoMsgB1 :=
  ⟨rfl, rfl, rfl, rfl⟩

/-- C1 (amended): on acceptance both transports run the liveness
upsert, the scan append and the broadcast in the same order, but the
transports are not equivalent: the HTTP handler additionally writes
the Last-Known Cache entry between the append and the broadcast, while
the typed procedure never touches the cache; their accept decisions
can also differ (the typed schema deep-validates every point, HTTP
samples the first five). -/
theorem transports_effect_order_and_cache_divergence
    (db : Option Db) (cache : Cache) (body : Body) :
    (∀ msg : PointCloudMessage,
      (restIngest db noFail cache body).1 = .success msg →
      (restIngest db noFail cache body).2.2
        = [.upsertDrone msg.drone_id, .insertScan msg.drone_id,
           .cacheWrite msg.drone_id, .broadcast msg.drone_id] ∧
      latestLookup (restIngest db noFail cache body).2.1 msg.drone_id = some msg) ∧
    (∀ msg : PointCloudMessage,
      (trpcIngest db noFail cache body).1 = .success msg →
      (trpcIngest db noFail cache body).2.2
        = [.upsertDrone msg.drone_id, .insertScan msg.drone_id,
           .broadcast msg.drone_id] ∧
      (trpcIngest db noFail cache body).2.1 = cache) := by
  constructor
  · intro msg h
    rcases hv : restValidate db body with r | m
    · simp [restIngest, hv] at h
    · have hm : m = msg := by
        simpa [restIngest, hv, noFail] using h
      subst hm
      constructor
      · simp [restIngest, hv, noFail]
      · simp [restIngest, hv, noFail, latestLookup, cacheGet_cacheSet]
  · intro msg h
    rcases hp : parseIngestInput body with _ | input
    · simp [trpcIngest, hp] at h
    · rcases hk : validateApiKey db (.vStr input.api_key) with _ | rec
      · simp [trpcIngest, hp, hk] at h
      · by_cases hm : rec.droneId = input.drone_id
        · have hmsg : input.toMessage = msg := by
            simpa [trpcIngest, hp, hk, hm, noFail] using h
          subst hmsg
          constructor <;>
            simp [trpcIngest, hp, hk, hm, noFail, IngestInput.toMessage]
        · simp [trpcIngest, hp, hk, hm] at h

/-- C1 amended witness: for the concrete valid request, HTTP performs
upsert, append, cache write, broadcast and the cache answers the
batch; the typed procedure performs upsert, append, broadcast and
leaves the cache empty. -/
theorem transports_effect_order_and_cache_divergence_witness :
    ((restIngest demoDb noFail [] demoGoodBody).2.2
        = [.upsertDrone "d1", .insertScan "d1", .cacheWrite "d1",
           .broadcast "d1"] ∧
      latestLookup (restIngest demoDb noFail [] demoGoodBody).2.1 "d1"
        = some demoMsgB1) ∧
    ((trpcIngest demoDb noFail [] demoGoodBody).2.2
        = [.upsertDrone "d1", .insertScan "d1", .broadcast "d1"] ∧
      (trpcIngest demoDb noFail [] demoGoodBody).2.1 = ([] : Cache)) :=
  ⟨(transports_effect_order_and_cache_divergence demoDb [] demoGoodBody).1
      demoMsgB1 rfl,
   (transports_effect_order_and_cache_divergence demoDb [] demoGoodBody).2
      (IngestInput.toMessage ⟨"k1", "d1", "t1", [⟨1, 2, 3, 4, 5⟩], ⟨3, 3, 1, 9, 5, 40⟩⟩)
      rfl⟩

end QuiverHub
